import Mathlib

/-!
Verification of the scroll-event filter of master-3-smoother-scroll.

The program intercepts mouse-wheel events and decides, per event, whether to
forward or suppress it, using exponential smoothing of the 2-D scroll delta
and direction-change detection (src/main.rs, EventHandler).

Embedding conventions:
* f32 values are modelled as rationals (exact arithmetic; NaN and negative
  zero are not modelled, since no claim exercises them).
* SystemTime is modelled as a rational number of milliseconds since
  UNIX_EPOCH, which is 0.  SystemTime::now() is an explicit argument (now)
  of the decision function, since the code reads the wall clock inside.
* f32::exp is an abstract parameter expf of the decision function; no claim
  depends on the exact value of the exponential, only on how it is used.
* Duration::as_millis truncates to whole milliseconds; with timestamps in
  milliseconds this is the natural-number floor.
* The Mutex-guarded mutable fields of EventHandler become explicit state
  passing: handle_mouse_scroll takes the handler and returns the verdict
  together with the updated handler.
-/

namespace SmootherScroll

/-- One observed or derived 2-D scroll delta with its timestamp
(struct ScrollWithTimestamp in src/main.rs). -/
structure ScrollWithTimestamp where
  delta_x : ℚ
  delta_y : ℚ
  timestamp : ℚ
  deriving DecidableEq, Repr

/-- Default::default for ScrollWithTimestamp: zero deltas at UNIX_EPOCH. -/
def scrollDefault : ScrollWithTimestamp :=
  { delta_x := 0, delta_y := 0, timestamp := 0 }

/-- The filter configuration (struct EventHandlerConfig in src/main.rs). -/
structure EventHandlerConfig where
  min_smoothed_delta_size : ℚ
  min_delta_size : ℚ
  time_constant : ℚ
  deriving DecidableEq, Repr

/-- The event-handler state (struct EventHandler in src/main.rs).  The two
Mutex-guarded cells become plain fields; dropped_deltas and start_time are
carried along but never read by the filter logic. -/
structure EventHandler where
  last_scroll : ScrollWithTimestamp
  last_smoothed_scroll : ScrollWithTimestamp
  dropped_deltas : ℚ × ℚ
  config : EventHandlerConfig
  start_time : ℚ
  deriving DecidableEq, Repr

/-- EventHandler::new: fresh default state around the given configuration.
The now argument models time::SystemTime::now() stored as start_time. -/
def EventHandler.new (config : EventHandlerConfig) (now : ℚ) : EventHandler :=
  { last_scroll := scrollDefault
    last_smoothed_scroll := scrollDefault
    dropped_deltas := (0, 0)
    config := config
    start_time := now }

/-- Rust f32::signum on a rational: -1 for negative values, 1 otherwise.
Note that Rust maps +0.0 to 1.0 (zero counts as positive); the NaN and
-0.0 cases do not arise over the rationals. -/
def rustSignum (x : ℚ) : ℚ :=
  if x < 0 then -1 else 1

/-- Rust f32::clamp(lo, hi) for lo <= hi: values below lo become lo, values
above hi become hi. -/
def rustClamp (x lo hi : ℚ) : ℚ :=
  if x < lo then lo else if hi < x then hi else x

/-- Duration::as_millis of a nonnegative duration given in milliseconds:
truncation to whole milliseconds. -/
def asMillis (d : ℚ) : ℕ :=
  ⌊d⌋₊

/-- The sign-change test of src/main.rs lines 158-159: the f32::signum of
either axis differs from the signum of the previous raw sample. -/
def signChanged (prev : ScrollWithTimestamp) (delta_x delta_y : ℚ) : Bool :=
  decide (rustSignum delta_x ≠ rustSignum prev.delta_x ∨
          rustSignum delta_y ≠ rustSignum prev.delta_y)

/-- EventHandler::handle_mouse_scroll (src/main.rs lines 128-187).

Arguments beyond the handler itself: expf models f32::exp, now models the
value of time::SystemTime::now() read at line 144, and (timestamp, delta_x,
delta_y) are the event data.  Returns the keep/drop verdict and the updated
handler.  SystemTime::duration_since fails exactly when the argument is
strictly later than the receiver, hence the now < last_delta.timestamp
test; on success the duration is their difference. -/
def handle_mouse_scroll (expf : ℚ → ℚ) (self : EventHandler)
    (now timestamp delta_x delta_y : ℚ) : Bool × EventHandler :=
  let last_delta := self.last_scroll
  let self1 : EventHandler :=
    if last_delta.timestamp < timestamp then
      { self with last_scroll :=
          { delta_x := delta_x, delta_y := delta_y, timestamp := timestamp } }
    else self
  if now < last_delta.timestamp then
    -- duration_since returned Err: the shoddy fallback of lines 146-155
    (decide (self.config.min_delta_size ≤ |delta_x| ∧
             self.config.min_delta_size ≤ |delta_y|), self1)
  else
    let duration := now - last_delta.timestamp
    let sign_changed := signChanged last_delta delta_x delta_y
    let alpha := 1 - expf (-(asMillis duration : ℚ) / self.config.time_constant)
    let alpha := rustClamp alpha 0 1
    let alpha := if sign_changed then 1 else alpha
    let smoothed_delta : ScrollWithTimestamp :=
      { delta_x := delta_x * alpha + self1.last_smoothed_scroll.delta_x * (1 - alpha)
        delta_y := delta_y * alpha + self1.last_smoothed_scroll.delta_y * (1 - alpha)
        timestamp := timestamp }
    let self2 := { self1 with last_smoothed_scroll := smoothed_delta }
    if sign_changed then
      (true, self2)
    else
      (decide (self.config.min_smoothed_delta_size ≤ |smoothed_delta.delta_x| ∨
               self.config.min_smoothed_delta_size ≤ |smoothed_delta.delta_y| ∨
               self.config.min_delta_size ≤ |delta_x| ∨
               self.config.min_delta_size ≤ |delta_y|), self2)

/-- The event payloads relevant to the callback: a wheel line-delta event,
or any of the remaining rdev event kinds, collapsed into an opaque tag. -/
inductive EventKind where
  | wheelLineDelta (delta_x delta_y : ℚ)
  | otherEvent (tag : ℕ)
  deriving DecidableEq, Repr

/-- An rdev event: a timestamp and a payload. -/
structure Event where
  time : ℚ
  event_type : EventKind
  deriving DecidableEq, Repr

/-- EventHandler::callback (src/main.rs lines 113-126): wheel line-delta
events go through the filter and are kept or dropped; every other event is
returned unchanged. -/
def callback (expf : ℚ → ℚ) (self : EventHandler) (now : ℚ) (event : Event) :
    Option Event × EventHandler :=
  match event.event_type with
  | EventKind.wheelLineDelta delta_x delta_y =>
      let r := handle_mouse_scroll expf self now event.time delta_x delta_y
      (if r.1 then some event else none, r.2)
  | EventKind.otherEvent _ => (some event, self)

/-- Running the filter over a list of calls, each call being the wall-clock
reading followed by the event data (timestamp, delta_x, delta_y); yields
the verdict of every call in order and the final handler state. -/
def runHandler (expf : ℚ → ℚ) :
    EventHandler → List (ℚ × ℚ × ℚ × ℚ) → List Bool × EventHandler
  | self, [] => ([], self)
  | self, (now, timestamp, delta_x, delta_y) :: rest =>
      let r := handle_mouse_scroll expf self now timestamp delta_x delta_y
      let rest_r := runHandler expf r.2 rest
      (r.1 :: rest_r.1, rest_r.2)

/-- The sign function as the specification defines it: zero is its own
distinct value, neither positive nor negative. -/
def specSign (x : ℚ) : ℤ :=
  if 0 < x then 1 else if x < 0 then -1 else 0

/-- The smoothing factor as the specification states it: clamp the
exponential-decay weight to the unit interval, and force it to 1 when a
sign change was detected. -/
def alphaSpec (expf : ℚ → ℚ) (time_constant : ℚ) (delta_ms : ℕ)
    (sign_changed : Bool) : ℚ :=
  if sign_changed then 1
  else max 0 (min (1 - expf (-(delta_ms : ℚ) / time_constant)) 1)

/-- The smoothed sample as the specification states it: blend the raw
deltas with the previous smoothed deltas by alphaSpec, componentwise, and
carry the incoming event timestamp. -/
def smoothedSpec (expf : ℚ → ℚ) (cfg : EventHandlerConfig)
    (prev_raw prev_smoothed : ScrollWithTimestamp)
    (now timestamp delta_x delta_y : ℚ) : ScrollWithTimestamp :=
  let alpha := alphaSpec expf cfg.time_constant (asMillis (now - prev_raw.timestamp))
      (signChanged prev_raw delta_x delta_y)
  { delta_x := delta_x * alpha + prev_smoothed.delta_x * (1 - alpha)
    delta_y := delta_y * alpha + prev_smoothed.delta_y * (1 - alpha)
    timestamp := timestamp }

/-- The configuration constructed in main (src/main.rs lines 44-48). -/
def mainConfig : EventHandlerConfig :=
  { min_smoothed_delta_size := 2 / 120
    min_delta_size := 4 / 120
    time_constant := 80 }

/-- A concrete stand-in for f32::exp used by witnesses and counterexamples:
it matches the real exponential at the points where those evaluate it
(exp of -5/8 is about 0.535, and f32::exp underflows to 0 below -103). -/
def expfEx : ℚ → ℚ :=
  fun q => if q < -1 then 0 else 107 / 200

/-- A concrete handler state reached after a positive scroll run: the last
raw sample is (3/5, 0) at time 100, the smoothed sample is still zero. -/
def handlerA : EventHandler :=
  { EventHandler.new mainConfig 0 with last_scroll :=
      { delta_x := 3 / 5, delta_y := 0, timestamp := 100 } }

/-- Rust clamp to the unit interval agrees with the max-min clamp used in
the specification formula. -/
theorem rustClamp_eq_max_min (x : ℚ) :
    rustClamp x 0 1 = max 0 (min x 1) := by
  unfold rustClamp
  rcases lt_trichotomy x 0 with h | h | h
  · rw [if_pos h]
    rw [max_eq_left]
    exact le_trans (min_le_left x 1) (le_of_lt h)
  · subst h
    norm_num
  · rw [if_neg (not_lt.mpr (le_of_lt h))]
    by_cases h1 : 1 < x
    · rw [if_pos h1]
      rw [min_eq_right (le_of_lt h1), max_eq_right]
      norm_num
    · rw [if_neg h1]
      rw [min_eq_left (not_lt.mp h1), max_eq_right (le_of_lt h)]

/-- Claim C2: when the elapsed-time computation fails (the wall clock read
at decision time is behind the stored previous raw timestamp), the decision
still returns a boolean verdict, and that fallback verdict is true exactly
when both raw delta magnitudes reach min_delta_size. -/
theorem claim_C2 (expf : ℚ → ℚ) (self : EventHandler)
    (now timestamp delta_x delta_y : ℚ)
    (h : now < self.last_scroll.timestamp) :
    (handle_mouse_scroll expf self now timestamp delta_x delta_y).1 = true ↔
      (self.config.min_delta_size ≤ |delta_x| ∧
       self.config.min_delta_size ≤ |delta_y|) := by
  unfold handle_mouse_scroll
  simp only [if_pos h]
  simp

theorem claim_C2_witness :
    (50 : ℚ) < handlerA.last_scroll.timestamp ∧
      ((handle_mouse_scroll expfEx handlerA 50 120 2 2).1 = true ↔
        (handlerA.config.min_delta_size ≤ |(2 : ℚ)| ∧
         handlerA.config.min_delta_size ≤ |(2 : ℚ)|)) :=
  ⟨by norm_num [handlerA, EventHandler.new],
   claim_C2 expfEx handlerA 50 120 2 2
     (by norm_num [handlerA, EventHandler.new])⟩

/-- Helper: the raw-state register after any call, on every path. -/
theorem handle_snd_last_scroll (expf : ℚ → ℚ) (self : EventHandler)
    (now timestamp delta_x delta_y : ℚ) :
    (handle_mouse_scroll expf self now timestamp delta_x delta_y).2.last_scroll =
      (if self.last_scroll.timestamp < timestamp then
        { delta_x := delta_x, delta_y := delta_y, timestamp := timestamp }
       else self.last_scroll) := by
  unfold handle_mouse_scroll
  by_cases h1 : self.last_scroll.timestamp < timestamp <;>
  by_cases h2 : now < self.last_scroll.timestamp <;>
    simp [h1, h2] <;> split <;> rfl

/-- Claim C5: last_scroll is overwritten with the incoming event exactly
when the event timestamp is strictly greater than the stored one, so the
stored raw timestamp never decreases across calls. -/
theorem claim_C5 (expf : ℚ → ℚ) (self : EventHandler)
    (now timestamp delta_x delta_y : ℚ) :
    (handle_mouse_scroll expf self now timestamp delta_x delta_y).2.last_scroll =
      (if self.last_scroll.timestamp < timestamp then
        { delta_x := delta_x, delta_y := delta_y, timestamp := timestamp }
       else self.last_scroll) ∧
    self.last_scroll.timestamp ≤
      (handle_mouse_scroll expf self now timestamp delta_x delta_y).2.last_scroll.timestamp := by
  refine ⟨handle_snd_last_scroll expf self now timestamp delta_x delta_y, ?_⟩
  rw [handle_snd_last_scroll]
  by_cases h1 : self.last_scroll.timestamp < timestamp
  · rw [if_pos h1]
    exact le_of_lt h1
  · rw [if_neg h1]

/-- Claim C9: every event that is not a wheel line-delta event is returned
unchanged by the callback, and the handler state it returns is the very
state it was given, whatever that state is. -/
theorem claim_C9 (expf : ℚ → ℚ) (self : EventHandler) (now t : ℚ) (tag : ℕ) :
    callback expf self now { time := t, event_type := EventKind.otherEvent tag } =
      (some { time := t, event_type := EventKind.otherEvent tag }, self) := by
  rfl

/-- Claim C10: on the clock-anomaly path the decision returns before the
smoothing step, leaving last_smoothed_scroll untouched, while last_scroll
has already been conditionally overwritten (exactly when the event
timestamp is strictly newer than the stored one). -/
theorem claim_C10 (expf : ℚ → ℚ) (self : EventHandler)
    (now timestamp delta_x delta_y : ℚ)
    (h : now < self.last_scroll.timestamp) :
    (handle_mouse_scroll expf self now timestamp delta_x delta_y).2.last_smoothed_scroll =
      self.last_smoothed_scroll ∧
    (handle_mouse_scroll expf self now timestamp delta_x delta_y).2.last_scroll =
      (if self.last_scroll.timestamp < timestamp then
        { delta_x := delta_x, delta_y := delta_y, timestamp := timestamp }
       else self.last_scroll) := by
  unfold handle_mouse_scroll
  by_cases h1 : self.last_scroll.timestamp < timestamp <;> simp [h, h1]

theorem claim_C10_witness :
    (50 : ℚ) < handlerA.last_scroll.timestamp ∧
      ((handle_mouse_scroll expfEx handlerA 50 200 1 2).2.last_smoothed_scroll =
        handlerA.last_smoothed_scroll ∧
       (handle_mouse_scroll expfEx handlerA 50 200 1 2).2.last_scroll =
        (if handlerA.last_scroll.timestamp < 200 then
          { delta_x := 1, delta_y := 2, timestamp := 200 }
         else handlerA.last_scroll)) :=
  ⟨by norm_num [handlerA, EventHandler.new],
   claim_C10 expfEx handlerA 50 200 1 2
     (by norm_num [handlerA, EventHandler.new])⟩

/-- Claim C1 counterexample: under the sign function of the specification,
where sign of zero is its own distinct value, a transition from a positive
previous raw delta_x to an exactly zero delta_x is a sign change, yet the
code suppresses the event (the Rust f32::signum maps 0 to 1, so the code
detects no change and the zero-magnitude event falls below every
threshold). -/
theorem claim_C1_counterexample :
    specSign 0 ≠ specSign handlerA.last_scroll.delta_x ∧
    (handle_mouse_scroll expfEx handlerA 150 120 0 0).1 = false := by
  constructor
  · norm_num [specSign, handlerA, EventHandler.new]
  · norm_num [handle_mouse_scroll, handlerA, EventHandler.new, scrollDefault,
      mainConfig, signChanged, rustSignum, rustClamp, asMillis, expfEx,
      Nat.floor_ofNat]

/-- Claim C1 (amended): with the sign of a delta computed as Rust
f32::signum computes it (negative values map to -1, zero and positive
values map to 1), any call on the non-anomalous path whose delta signum
differs from the previous raw signum on either axis returns true,
unconditionally and regardless of the magnitudes. -/
theorem claim_C1 (expf : ℚ → ℚ) (self : EventHandler)
    (now timestamp delta_x delta_y : ℚ)
    (h1 : ¬ now < self.last_scroll.timestamp)
    (h2 : signChanged self.last_scroll delta_x delta_y = true) :
    (handle_mouse_scroll expf self now timestamp delta_x delta_y).1 = true := by
  unfold handle_mouse_scroll
  simp [h1, h2]

theorem claim_C1_witness :
    (¬ (150 : ℚ) < handlerA.last_scroll.timestamp ∧
     signChanged handlerA.last_scroll (-1/100) 0 = true) ∧
    (handle_mouse_scroll expfEx handlerA 150 120 (-1/100) 0).1 = true :=
  ⟨⟨by norm_num [handlerA, EventHandler.new],
    by norm_num [signChanged, rustSignum, handlerA, EventHandler.new]⟩,
   claim_C1 expfEx handlerA 150 120 (-1/100) 0
     (by norm_num [handlerA, EventHandler.new])
     (by norm_num [signChanged, rustSignum, handlerA, EventHandler.new])⟩

/-- Claim C3: on the non-anomalous path with no sign change detected, the
verdict is true exactly when the stored new smoothed sample reaches
min_smoothed_delta_size on either axis, or a raw delta magnitude reaches
min_delta_size on either axis. -/
theorem claim_C3 (expf : ℚ → ℚ) (self : EventHandler)
    (now timestamp delta_x delta_y : ℚ)
    (h1 : ¬ now < self.last_scroll.timestamp)
    (h2 : signChanged self.last_scroll delta_x delta_y = false) :
    ((handle_mouse_scroll expf self now timestamp delta_x delta_y).1 = true ↔
      (self.config.min_smoothed_delta_size ≤
        |(handle_mouse_scroll expf self now timestamp
            delta_x delta_y).2.last_smoothed_scroll.delta_x| ∨
       self.config.min_smoothed_delta_size ≤
        |(handle_mouse_scroll expf self now timestamp
            delta_x delta_y).2.last_smoothed_scroll.delta_y| ∨
       self.config.min_delta_size ≤ |delta_x| ∨
       self.config.min_delta_size ≤ |delta_y|)) := by
  unfold handle_mouse_scroll
  simp [h1, h2]

theorem claim_C3_witness :
    (¬ (50 : ℚ) < (EventHandler.new mainConfig 0).last_scroll.timestamp ∧
     signChanged (EventHandler.new mainConfig 0).last_scroll 1 0 = false) ∧
    ((handle_mouse_scroll expfEx (EventHandler.new mainConfig 0) 50 10 1 0).1 = true ↔
      ((EventHandler.new mainConfig 0).config.min_smoothed_delta_size ≤
        |(handle_mouse_scroll expfEx (EventHandler.new mainConfig 0)
            50 10 1 0).2.last_smoothed_scroll.delta_x| ∨
       (EventHandler.new mainConfig 0).config.min_smoothed_delta_size ≤
        |(handle_mouse_scroll expfEx (EventHandler.new mainConfig 0)
            50 10 1 0).2.last_smoothed_scroll.delta_y| ∨
       (EventHandler.new mainConfig 0).config.min_delta_size ≤ |(1 : ℚ)| ∨
       (EventHandler.new mainConfig 0).config.min_delta_size ≤ |(0 : ℚ)|)) :=
  ⟨⟨by norm_num [EventHandler.new, scrollDefault],
    by norm_num [signChanged, rustSignum, EventHandler.new, scrollDefault]⟩,
   claim_C3 expfEx (EventHandler.new mainConfig 0) 50 10 1 0
     (by norm_num [EventHandler.new, scrollDefault])
     (by norm_num [signChanged, rustSignum, EventHandler.new, scrollDefault])⟩

/-- Claim C4: on the non-anomalous path the stored new smoothed sample is
exactly the specification formula: each component blends the raw delta
with the previous smoothed component by alpha, where alpha is the clamped
exponential weight, forced to exactly 1 on a detected sign change, and the
sample carries the incoming event timestamp; it is stored unconditionally
on this path. -/
theorem claim_C4 (expf : ℚ → ℚ) (self : EventHandler)
    (now timestamp delta_x delta_y : ℚ)
    (h1 : ¬ now < self.last_scroll.timestamp) :
    (handle_mouse_scroll expf self now timestamp
        delta_x delta_y).2.last_smoothed_scroll =
      smoothedSpec expf self.config self.last_scroll self.last_smoothed_scroll
        now timestamp delta_x delta_y := by
  unfold handle_mouse_scroll smoothedSpec alphaSpec
  simp only [rustClamp_eq_max_min]
  by_cases h3 : self.last_scroll.timestamp < timestamp <;>
  cases hsc : signChanged self.last_scroll delta_x delta_y <;>
    simp [h1, h3, hsc]

theorem claim_C4_witness :
    (¬ (150 : ℚ) < handlerA.last_scroll.timestamp) ∧
    (handle_mouse_scroll expfEx handlerA 150 120 0 0).2.last_smoothed_scroll =
      smoothedSpec expfEx handlerA.config handlerA.last_scroll
        handlerA.last_smoothed_scroll 150 120 0 0 :=
  ⟨by norm_num [handlerA, EventHandler.new],
   claim_C4 expfEx handlerA 150 120 0 0
     (by norm_num [handlerA, EventHandler.new])⟩

/-- Claim C7: from the freshly constructed handler (sentinel zero sample at
the epoch), the very first event whose delta_x magnitude reaches
min_delta_size is forwarded, for any wall clock not before the epoch. -/
theorem claim_C7 (expf : ℚ → ℚ) (cfg : EventHandlerConfig)
    (t0 now timestamp delta_x delta_y : ℚ)
    (h1 : 0 ≤ now) (h2 : cfg.min_delta_size ≤ |delta_x|) :
    (handle_mouse_scroll expf (EventHandler.new cfg t0)
        now timestamp delta_x delta_y).1 = true := by
  have hnl : ¬ now < (0 : ℚ) := not_lt.mpr h1
  unfold handle_mouse_scroll
  simp only [EventHandler.new, scrollDefault]
  cases hsc : signChanged { delta_x := 0, delta_y := 0, timestamp := 0 }
      delta_x delta_y <;>
    simp [hnl, hsc, h2]

theorem claim_C7_witness :
    ((0 : ℚ) ≤ 5 ∧ mainConfig.min_delta_size ≤ |(1 : ℚ)|) ∧
    (handle_mouse_scroll expfEx (EventHandler.new mainConfig 0) 5 5 1 0).1 = true :=
  ⟨⟨by norm_num, by norm_num [mainConfig]⟩,
   claim_C7 expfEx mainConfig 0 5 5 1 0 (by norm_num) (by norm_num [mainConfig])⟩

/-- Claim C6 counterexample: two runs fed the identical event sequence
(one event with timestamp 60 and deltas 1/60 and 0) from the same fresh
handler produce different verdicts when the wall clock read inside the
decision differs (50 versus 100000 milliseconds), so the verdicts are not
a pure function of the events alone. -/
theorem claim_C6_counterexample :
    (runHandler expfEx (EventHandler.new mainConfig 0) [(50, 60, 1/60, 0)]).1 ≠
    (runHandler expfEx (EventHandler.new mainConfig 0) [(100000, 60, 1/60, 0)]).1 := by
  norm_num [runHandler, handle_mouse_scroll, EventHandler.new, scrollDefault,
    mainConfig, signChanged, rustSignum, rustClamp, asMillis, expfEx,
    Nat.floor_ofNat]
  rw [abs_of_nonneg (show (0 : ℚ) ≤ 31 / 4000 by norm_num),
    abs_of_nonneg (show (0 : ℚ) ≤ 1 / 60 by norm_num)]
  norm_num

/-- Claim C6 (amended): the verdict sequence is a pure function of the
sequence of calls, each call taken with its wall-clock reading as well as
its event data, produced online in call order: the verdicts of any prefix
of calls do not depend on later calls, and later verdicts depend on
earlier calls only through the handler state the prefix leaves behind. -/
theorem claim_C6 (expf : ℚ → ℚ) (self : EventHandler)
    (calls1 calls2 : List (ℚ × ℚ × ℚ × ℚ)) :
    runHandler expf self (calls1 ++ calls2) =
      ((runHandler expf self calls1).1 ++
        (runHandler expf (runHandler expf self calls1).2 calls2).1,
       (runHandler expf (runHandler expf self calls1).2 calls2).2) := by
  induction calls1 generalizing self with
  | nil => simp [runHandler]
  | cons c rest ih =>
      obtain ⟨now, timestamp, delta_x, delta_y⟩ := c
      simp [runHandler, ih]

/-- A configuration violating both documented invariants: the smoothed
threshold exceeds the raw threshold and the time constant is negative. -/
def badConfig : EventHandlerConfig :=
  { min_smoothed_delta_size := 2
    min_delta_size := 1
    time_constant := -1 }

/-- Claim C8 counterexample: EventHandler.new performs no validation, so a
handler is successfully constructed from badConfig even though that
configuration violates both invariants (its smoothed threshold is above
its raw threshold and its time constant is not positive). -/
theorem claim_C8_counterexample :
    ¬ ((EventHandler.new badConfig 0).config.min_smoothed_delta_size ≤
        (EventHandler.new badConfig 0).config.min_delta_size ∧
       0 < (EventHandler.new badConfig 0).config.time_constant) := by
  norm_num [EventHandler.new, badConfig]

/-- Claim C8 (amended): construction never rejects a configuration; every
configuration, valid or not, is stored verbatim in the constructed handler
together with the sentinel zero state.  The invariants are not enforced at
construction time; the one configuration the program constructs in main
does satisfy them. -/
theorem claim_C8 (cfg : EventHandlerConfig) (t0 : ℚ) :
    (EventHandler.new cfg t0).config = cfg ∧
    (EventHandler.new cfg t0).last_scroll = scrollDefault ∧
    (EventHandler.new cfg t0).last_smoothed_scroll = scrollDefault ∧
    (mainConfig.min_smoothed_delta_size ≤ mainConfig.min_delta_size ∧
     0 < mainConfig.time_constant) :=
  ⟨rfl, rfl, rfl, by norm_num [mainConfig]⟩

end SmootherScroll
